import Mathlib

/-!
Shallow embedding of `viz_scout/dataset.py` (class `DatasetLoader`).

The Python code retrieves image files from one of three origins (local
filesystem, S3, MinIO), selected by the source string's scheme, and returns
a dict mapping identifiers to in-memory byte streams seeked to offset 0.

Modelling choices:
* Bytes are `List Nat`; a `BytesIO` stream is a buffer plus a read position.
* Python exceptions are the `.error` side of `Except PyError`; `ValueError`
  is the configuration-class error the spec calls `ConfigurationError`.
* The three storage backends are abstract environments (records of
  functions): the local filesystem answers `os.path.exists`, `os.listdir`
  and whole-file reads; the S3 service stores its listing as pages (the
  code consults only the first page, via `list_objects_v2` without
  pagination) and answers `download_fileobj`; the MinIO client answers a
  recursive listing and `fget_object`.
* Python dicts used as configs are association lists; Python truthiness of
  a dict (`if not self.s3_config`) is non-emptiness of a present config.
* The result dict is an association list in insertion order.
-/

/-- A Python-level error: `ValueError` (configuration-class), `KeyError`
(missing dict key), or a generic I/O / network / client failure. -/
inductive PyError where
  | valueError (msg : String)
  | keyError (key : String)
  | ioError (msg : String)
deriving DecidableEq, Repr

/-- An in-memory byte stream (`io.BytesIO`): owned buffer plus read position. -/
structure ByteStream where
  contents : List Nat
  pos : Nat
deriving DecidableEq, Repr

/-- The result of `load_images`: dict from identifier to stream, in insertion order. -/
abbrev LoadResult : Type := List (String × ByteStream)

/-- Python `str.lower()` (per-character lowercasing). -/
def pyLower (s : String) : String := ⟨s.data.map Char.toLower⟩

/-- Python `str.endswith(suffix)`. -/
def pyEndsWith (s suf : String) : Bool := decide (suf.data <:+ s.data)

/-- Python `str.startswith(p)`. -/
def pyStartsWith (s p : String) : Bool := decide (p.data <+: s.data)

/-- The tuple of supported extensions from `dataset.py`. -/
def imageExts : List String := [".png", ".jpg", ".jpeg", ".bmp"]

/-- The filter applied to every candidate name:
`name.lower().endswith(('.png', '.jpg', '.jpeg', '.bmp'))`. -/
def isImageName (name : String) : Bool :=
  imageExts.any (fun ext => pyEndsWith (pyLower name) ext)

/-- POSIX `os.path.join` for the two-argument uses in `dataset.py`. -/
def osPathJoin (a b : String) : String :=
  if pyStartsWith b "/" then b
  else if a = "" then b
  else if pyEndsWith a "/" then a ++ b
  else a ++ "/" ++ b

/-- A Python dict with string keys and string values, as an association list. -/
abbrev ConfigDict : Type := List (String × String)

/-- Python `d.get(k)`: first binding of `k`, if any. -/
def dictGet (d : ConfigDict) (k : String) : Option String :=
  (d.find? (fun p => p.1 = k)).map (fun p => p.2)

/-- Python `d[k]`: raises `KeyError` when `k` is unbound. -/
def getItem (d : ConfigDict) (k : String) : Except PyError String :=
  match dictGet d k with
  | some v => Except.ok v
  | none => Except.error (PyError.keyError k)

/-- Python truthiness of an optional dict: `None` and `{}` are falsy. -/
def configTruthy : Option ConfigDict → Bool
  | none => false
  | some d => !d.isEmpty

/-- The local filesystem as seen by `_load_from_local`: `os.path.exists`,
`os.listdir`, and reading a whole file (`open(file, "rb").read()`). -/
structure LocalFS where
  pathExists : String → Bool
  listdir : String → Except PyError (List String)
  readBytes : String → Except PyError (List Nat)

/-- The S3 backend as seen by `_load_from_s3`: the bucket listing is stored
as pages of object keys (the code issues one `list_objects_v2` call, so only
the first page is ever consulted) and `download_fileobj` yields bytes. -/
structure S3Service where
  listResult : String → Except PyError (List (List String))
  download : String → String → Except PyError (List Nat)

/-- The MinIO backend as seen by `_load_from_minio`: `list_objects` with
`recursive=True` yields every object name at any depth; `fget_object`
yields an object's bytes. -/
structure MinioService where
  listRecursive : String → Except PyError (List String)
  fetchObject : String → String → Except PyError (List Nat)

/-- The world a `load_images` call runs against: all three origins. -/
structure Env where
  fs : LocalFS
  s3 : S3Service
  minio : MinioService

/-- The `DatasetLoader` constructor state: `source`, `minio_config`, `s3_config`.
Construction stores the three values and validates nothing. -/
structure DatasetLoader where
  source : String
  minio_config : Option ConfigDict
  s3_config : Option ConfigDict

/-- The shared loop body of the S3 and MinIO strategies: iterate over the
listed keys in order, skip keys failing the extension filter, fetch each
matching key into a fresh buffer seeked to 0, and insert under the raw key.
The first fetch failure aborts the whole loop. -/
def streamAll (fetch : String → Except PyError (List Nat)) :
    List String → Except PyError LoadResult
  | [] => Except.ok []
  | key :: rest =>
    if isImageName key then
      match fetch key with
      | Except.error e => Except.error e
      | Except.ok bytes =>
        match streamAll fetch rest with
        | Except.error e => Except.error e
        | Except.ok files => Except.ok ((key, ⟨bytes, 0⟩) :: files)
    else streamAll fetch rest

/-- The local dict comprehension: read every path in order into a buffer
seeked to 0, keyed by the path itself; any read failure aborts the call. -/
def loadFilesFromList (readB : String → Except PyError (List Nat)) :
    List String → Except PyError LoadResult
  | [] => Except.ok []
  | p :: rest =>
    match readB p with
    | Except.error e => Except.error e
    | Except.ok bytes =>
      match loadFilesFromList readB rest with
      | Except.error e => Except.error e
      | Except.ok files => Except.ok ((p, ⟨bytes, 0⟩) :: files)

/-- `DatasetLoader._load_from_local`: fail with `ValueError` when the source
path does not exist; otherwise list direct entries, keep the image-named
ones, and read each under its joined path `os.path.join(source, file)`. -/
def load_from_local (L : DatasetLoader) (fs : LocalFS) : Except PyError LoadResult :=
  if fs.pathExists L.source = false then
    Except.error (PyError.valueError ("Local path does not exist: " ++ L.source))
  else
    match fs.listdir L.source with
    | Except.error e => Except.error e
    | Except.ok entries =>
      loadFilesFromList fs.readBytes
        ((entries.filter (fun f => isImageName f)).map (fun f => osPathJoin L.source f))

/-- `DatasetLoader._load_from_s3`: fail with `ValueError` when `s3_config` is
falsy; otherwise build the client from `access_key`, `secret_key`, `region`
(each raising `KeyError` when unbound), list the bucket once (first page
only, `Contents` defaulting to the empty list), and stream matching keys. -/
def load_from_s3 (L : DatasetLoader) (svc : S3Service) : Except PyError LoadResult :=
  match L.s3_config with
  | none => Except.error (PyError.valueError "S3 configuration is required for loading from S3.")
  | some cfg =>
    if cfg.isEmpty then
      Except.error (PyError.valueError "S3 configuration is required for loading from S3.")
    else
      match getItem cfg "access_key" with
      | Except.error e => Except.error e
      | Except.ok _ =>
      match getItem cfg "secret_key" with
      | Except.error e => Except.error e
      | Except.ok _ =>
      match getItem cfg "region" with
      | Except.error e => Except.error e
      | Except.ok _ =>
      match getItem cfg "bucket" with
      | Except.error e => Except.error e
      | Except.ok bucket =>
      match svc.listResult bucket with
      | Except.error e => Except.error e
      | Except.ok pages => streamAll (svc.download bucket) (pages.headD [])

/-- `DatasetLoader._load_from_minio`: fail with `ValueError` when
`minio_config` is falsy; otherwise build the client from `endpoint`,
`access_key`, `secret_key` (each raising `KeyError` when unbound; `secure`
is read with a default and cannot fail), list the bucket recursively, and
stream matching keys. -/
def load_from_minio (L : DatasetLoader) (svc : MinioService) : Except PyError LoadResult :=
  match L.minio_config with
  | none => Except.error (PyError.valueError "MinIO configuration is required for loading from MinIO.")
  | some cfg =>
    if cfg.isEmpty then
      Except.error (PyError.valueError "MinIO configuration is required for loading from MinIO.")
    else
      match getItem cfg "endpoint" with
      | Except.error e => Except.error e
      | Except.ok _ =>
      match getItem cfg "access_key" with
      | Except.error e => Except.error e
      | Except.ok _ =>
      match getItem cfg "secret_key" with
      | Except.error e => Except.error e
      | Except.ok _ =>
      match getItem cfg "bucket" with
      | Except.error e => Except.error e
      | Except.ok bucket =>
      match svc.listRecursive bucket with
      | Except.error e => Except.error e
      | Except.ok objects => streamAll (svc.fetchObject bucket) objects

/-- `DatasetLoader.load_images`: dispatch on the source's scheme — `s3://`
selects S3, `minio://` selects MinIO, anything else is a local path. -/
def load_images (L : DatasetLoader) (env : Env) : Except PyError LoadResult :=
  if pyStartsWith L.source "s3://" then load_from_s3 L env.s3
  else if pyStartsWith L.source "minio://" then load_from_minio L env.minio
  else load_from_local L env.fs

/-! ### Concrete sample origins, configs and loaders, used to witness the theorems -/

/-- A sample local filesystem: one directory `data` holding one image-named
file and one other file. -/
def fsA : LocalFS where
  pathExists := fun p => p == "data"
  listdir := fun p =>
    if p == "data" then Except.ok ["a.PNG", "b.txt"]
    else Except.error (PyError.ioError "listdir")
  readBytes := fun p =>
    if p == "data/a.PNG" then Except.ok [1, 2, 3]
    else Except.error (PyError.ioError "read")

/-- A sample S3 backend whose listing has two pages; the second page holds a
matching object that a paginated client would have returned. -/
def s3A : S3Service where
  listResult := fun b =>
    if b == "bkt" then Except.ok [["x.jpg", "notes.txt"], ["later.png"]]
    else Except.error (PyError.ioError "bucket")
  download := fun _ k =>
    if k == "x.jpg" then Except.ok [7]
    else if k == "later.png" then Except.ok [9]
    else Except.error (PyError.ioError "download")

/-- A sample MinIO backend with a nested object name. -/
def minioA : MinioService where
  listRecursive := fun b =>
    if b == "mb" then Except.ok ["d1/d2/pic.BMP", "d1/readme.md"]
    else Except.error (PyError.ioError "bucket")
  fetchObject := fun _ k =>
    if k == "d1/d2/pic.BMP" then Except.ok [3, 4]
    else Except.error (PyError.ioError "fetch")

/-- The sample world combining the three sample origins. -/
def envA : Env := { fs := fsA, s3 := s3A, minio := minioA }

/-- An S3 backend whose only matching object fails to download. -/
def s3B : S3Service where
  listResult := fun _ => Except.ok [["x.jpg"]]
  download := fun _ _ => Except.error (PyError.ioError "boom")

/-- A world whose S3 backend fails every download. -/
def envB : Env := { fs := fsA, s3 := s3B, minio := minioA }

/-- A complete sample S3 config. -/
def s3cfgA : ConfigDict :=
  [("bucket", "bkt"), ("access_key", "ak"), ("secret_key", "sk"), ("region", "r")]

/-- A complete sample MinIO config. -/
def minioCfgA : ConfigDict :=
  [("endpoint", "ep"), ("access_key", "ak"), ("secret_key", "sk"), ("bucket", "mb")]

/-- A loader pointed at the sample local directory. -/
def loaderLocalA : DatasetLoader := { source := "data", minio_config := none, s3_config := none }

/-- A loader pointed at the sample S3 bucket. -/
def loaderS3A : DatasetLoader :=
  { source := "s3://bkt", minio_config := none, s3_config := some s3cfgA }

/-- A loader pointed at the sample MinIO bucket. -/
def loaderMinioA : DatasetLoader :=
  { source := "minio://mb", minio_config := some minioCfgA, s3_config := none }

/-- A loader pointed at a missing local path. -/
def loaderLocalB : DatasetLoader :=
  { source := "missing", minio_config := none, s3_config := none }

/-- A loader selecting S3 with no S3 config supplied. -/
def loaderS3NoCfg : DatasetLoader :=
  { source := "s3://bkt", minio_config := none, s3_config := none }

instance {ε : Type} {α : Type} [DecidableEq ε] [DecidableEq α] :
    DecidableEq (Except ε α) := fun a b =>
  match a, b with
  | Except.error e1, Except.error e2 =>
    if h : e1 = e2 then isTrue (by rw [h]) else isFalse (fun hc => by cases hc; exact h rfl)
  | Except.error _, Except.ok _ => isFalse (fun hc => by cases hc)
  | Except.ok _, Except.error _ => isFalse (fun hc => by cases hc)
  | Except.ok v1, Except.ok v2 =>
    if h : v1 = v2 then isTrue (by rw [h]) else isFalse (fun hc => by cases hc; exact h rfl)

example : load_images loaderLocalA envA = Except.ok [("data/a.PNG", ⟨[1, 2, 3], 0⟩)] := by rfl

example : load_images loaderS3A envA = Except.ok [("x.jpg", ⟨[7], 0⟩)] := by rfl

example : load_images loaderMinioA envA = Except.ok [("d1/d2/pic.BMP", ⟨[3, 4], 0⟩)] := by rfl

/-! ### Helper lemmas -/

/-- Lowercasing distributes over string append. -/
theorem pyLower_append (a s : String) : pyLower (a ++ s) = pyLower a ++ pyLower s := by
  apply String.ext
  simp [pyLower, String.data_append]

/-- A suffix of a string is a suffix of any extension of it on the left. -/
theorem pyEndsWith_append (a s ext : String) (h : pyEndsWith s ext = true) :
    pyEndsWith (a ++ s) ext = true := by
  unfold pyEndsWith at h ⊢
  rw [decide_eq_true_iff] at h ⊢
  rw [String.data_append]
  exact h.trans (List.suffix_append a.data s.data)

/-- The extension filter is preserved by prepending a path on the left. -/
theorem isImageName_append (a s : String) (h : isImageName s = true) :
    isImageName (a ++ s) = true := by
  unfold isImageName at h ⊢
  rw [List.any_eq_true] at h ⊢
  obtain ⟨ext, hmem, hext⟩ := h
  refine ⟨ext, hmem, ?_⟩
  rw [pyLower_append]
  exact pyEndsWith_append (pyLower a) (pyLower s) ext hext

/-- The extension filter is preserved by joining a directory on the left. -/
theorem isImageName_osPathJoin (a s : String) (h : isImageName s = true) :
    isImageName (osPathJoin a s) = true := by
  unfold osPathJoin
  split
  · exact h
  split
  · exact h
  split
  · exact isImageName_append a s h
  · exact isImageName_append (a ++ "/") s h

/-- Every entry of a successful streaming loop has an image-named key drawn
from the listed keys. -/
theorem streamAll_ok_keys (fetch : String → Except PyError (List Nat)) :
    ∀ (keys : List String) (files : LoadResult),
      streamAll fetch keys = Except.ok files →
      ∀ p ∈ files, isImageName p.1 = true ∧ p.1 ∈ keys := by
  intro keys
  induction keys with
  | nil =>
    intro files h p hp
    simp only [streamAll] at h
    cases h
    simp at hp
  | cons key rest ih =>
    intro files h p hp
    simp only [streamAll] at h
    by_cases him : isImageName key = true
    · rw [if_pos him] at h
      cases hf : fetch key with
      | error e => rw [hf] at h; cases h
      | ok bytes =>
        rw [hf] at h
        cases hr : streamAll fetch rest with
        | error e => rw [hr] at h; cases h
        | ok files2 =>
          rw [hr] at h
          cases h
          rcases List.mem_cons.mp hp with hp2 | hp2
          · subst hp2
            exact ⟨him, List.mem_cons_self key rest⟩
          · obtain ⟨h1, h2⟩ := ih files2 hr p hp2
            exact ⟨h1, List.mem_cons_of_mem key h2⟩
    · rw [if_neg him] at h
      obtain ⟨h1, h2⟩ := ih files h p hp
      exact ⟨h1, List.mem_cons_of_mem key h2⟩

/-- When every matching fetch succeeds, the streaming loop returns exactly
the matching keys, in listing order, each with its bytes at position 0. -/
theorem streamAll_ok_of_all (fetch : String → Except PyError (List Nat))
    (content : String → List Nat) :
    ∀ keys : List String,
      (∀ k ∈ keys, isImageName k = true → fetch k = Except.ok (content k)) →
      streamAll fetch keys =
        Except.ok ((keys.filter (fun k => isImageName k)).map
          (fun k => (k, ⟨content k, 0⟩))) := by
  intro keys
  induction keys with
  | nil => intro _; rfl
  | cons key rest ih =>
    intro hall
    simp only [streamAll]
    by_cases him : isImageName key = true
    · rw [if_pos him, hall key (List.mem_cons_self key rest) him,
        ih (fun k hk hik => hall k (List.mem_cons_of_mem key hk) hik),
        List.filter_cons_of_pos him, List.map_cons]
    · rw [if_neg him, ih (fun k hk hik => hall k (List.mem_cons_of_mem key hk) hik),
        List.filter_cons_of_neg (by simpa using him)]

/-- When some matching listed key's fetch fails, the whole loop fails. -/
theorem streamAll_error_of_fetch (fetch : String → Except PyError (List Nat)) :
    ∀ (keys : List String) (k : String) (e : PyError),
      k ∈ keys → isImageName k = true → fetch k = Except.error e →
      ∃ e2, streamAll fetch keys = Except.error e2 := by
  intro keys
  induction keys with
  | nil => intro k e hk; simp at hk
  | cons key rest ih =>
    intro k e hk him hf
    simp only [streamAll]
    rcases List.mem_cons.mp hk with hk2 | hk2
    · subst hk2
      rw [if_pos him, hf]
      exact ⟨e, rfl⟩
    · by_cases him2 : isImageName key = true
      · rw [if_pos him2]
        cases hfk : fetch key with
        | error e3 => exact ⟨e3, rfl⟩
        | ok bytes =>
          obtain ⟨e2, hr⟩ := ih k e hk2 him hf
          rw [hr]
          exact ⟨e2, rfl⟩
      · rw [if_neg him2]
        exact ih k e hk2 him hf

/-- When every read succeeds, the local comprehension returns each path with
its bytes at position 0, in order. -/
theorem loadFilesFromList_ok (readB : String → Except PyError (List Nat))
    (content : String → List Nat) :
    ∀ ps : List String,
      (∀ p ∈ ps, readB p = Except.ok (content p)) →
      loadFilesFromList readB ps =
        Except.ok (ps.map (fun p => (p, ⟨content p, 0⟩))) := by
  intro ps
  induction ps with
  | nil => intro _; rfl
  | cons p rest ih =>
    intro hall
    simp only [loadFilesFromList]
    rw [hall p (List.mem_cons_self p rest),
      ih (fun q hq => hall q (List.mem_cons_of_mem p hq)), List.map_cons]

/-- When some listed path's read fails, the whole comprehension fails. -/
theorem loadFilesFromList_error (readB : String → Except PyError (List Nat)) :
    ∀ (ps : List String) (p : String) (e : PyError),
      p ∈ ps → readB p = Except.error e →
      ∃ e2, loadFilesFromList readB ps = Except.error e2 := by
  intro ps
  induction ps with
  | nil => intro p e hp; simp at hp
  | cons q rest ih =>
    intro p e hp hr
    simp only [loadFilesFromList]
    rcases List.mem_cons.mp hp with hp2 | hp2
    · subst hp2
      rw [hr]
      exact ⟨e, rfl⟩
    · cases hq : readB q with
      | error e3 => exact ⟨e3, rfl⟩
      | ok bytes =>
        obtain ⟨e2, hrest⟩ := ih p e hp2 hr
        rw [hrest]
        exact ⟨e2, rfl⟩

/-- A successful local comprehension's keys are exactly the listed paths. -/
theorem loadFilesFromList_ok_keys (readB : String → Except PyError (List Nat)) :
    ∀ (ps : List String) (files : LoadResult),
      loadFilesFromList readB ps = Except.ok files →
      files.map Prod.fst = ps := by
  intro ps
  induction ps with
  | nil =>
    intro files h
    simp only [loadFilesFromList] at h
    cases h
    rfl
  | cons p rest ih =>
    intro files h
    simp only [loadFilesFromList] at h
    cases hp : readB p with
    | error e => rw [hp] at h; cases h
    | ok bytes =>
      rw [hp] at h
      cases hr : loadFilesFromList readB rest with
      | error e => rw [hr] at h; cases h
      | ok files2 =>
        rw [hr] at h
        cases h
        simp only [List.map_cons]
        rw [ih files2 hr]

/-- Inversion of a successful local load: the path existed, the listing
succeeded, and the comprehension over joined matching paths succeeded. -/
theorem load_from_local_ok_inv (L : DatasetLoader) (fs : LocalFS) (files : LoadResult)
    (h : load_from_local L fs = Except.ok files) :
    fs.pathExists L.source = true ∧
    ∃ entries, fs.listdir L.source = Except.ok entries ∧
      loadFilesFromList fs.readBytes
        ((entries.filter (fun f => isImageName f)).map (fun f => osPathJoin L.source f))
        = Except.ok files := by
  unfold load_from_local at h
  by_cases hex : fs.pathExists L.source = false
  · rw [if_pos hex] at h
    cases h
  · rw [if_neg hex] at h
    refine ⟨by simpa using hex, ?_⟩
    cases hls : fs.listdir L.source with
    | error e => rw [hls] at h; cases h
    | ok entries =>
      rw [hls] at h
      exact ⟨entries, rfl, h⟩

/-- Inversion of a successful S3 load: a nonempty config was present, its
fields resolved, the single listing call succeeded, and the loop streamed
the first page. -/
theorem load_from_s3_ok_inv (L : DatasetLoader) (svc : S3Service) (files : LoadResult)
    (h : load_from_s3 L svc = Except.ok files) :
    ∃ cfg bucket pages, L.s3_config = some cfg ∧ cfg.isEmpty = false ∧
      dictGet cfg "bucket" = some bucket ∧
      svc.listResult bucket = Except.ok pages ∧
      streamAll (svc.download bucket) (pages.headD []) = Except.ok files := by
  cases hcfg : L.s3_config with
  | none => simp only [load_from_s3, hcfg] at h; cases h
  | some cfg =>
    simp only [load_from_s3, hcfg] at h
    by_cases hne : cfg.isEmpty = true
    · rw [if_pos hne] at h; cases h
    · rw [if_neg hne] at h
      cases h1 : getItem cfg "access_key" with
      | error e => simp only [h1] at h; cases h
      | ok v1 =>
        simp only [h1] at h
        cases h2 : getItem cfg "secret_key" with
        | error e => simp only [h2] at h; cases h
        | ok v2 =>
          simp only [h2] at h
          cases h3 : getItem cfg "region" with
          | error e => simp only [h3] at h; cases h
          | ok v3 =>
            simp only [h3] at h
            cases h4 : getItem cfg "bucket" with
            | error e => simp only [h4] at h; cases h
            | ok bucket =>
              simp only [h4] at h
              cases h5 : svc.listResult bucket with
              | error e => simp only [h5] at h; cases h
              | ok pages =>
                simp only [h5] at h
                refine ⟨cfg, bucket, pages, rfl, by simpa using hne, ?_, h5, h⟩
                unfold getItem at h4
                cases hd : dictGet cfg "bucket" with
                | none => rw [hd] at h4; cases h4
                | some v => rw [hd] at h4; cases h4; rfl

/-- Inversion of a successful MinIO load: a nonempty config was present, its
fields resolved, the recursive listing succeeded, and the loop streamed
every listed key. -/
theorem load_from_minio_ok_inv (L : DatasetLoader) (svc : MinioService) (files : LoadResult)
    (h : load_from_minio L svc = Except.ok files) :
    ∃ cfg bucket objects, L.minio_config = some cfg ∧ cfg.isEmpty = false ∧
      dictGet cfg "bucket" = some bucket ∧
      svc.listRecursive bucket = Except.ok objects ∧
      streamAll (svc.fetchObject bucket) objects = Except.ok files := by
  cases hcfg : L.minio_config with
  | none => simp only [load_from_minio, hcfg] at h; cases h
  | some cfg =>
    simp only [load_from_minio, hcfg] at h
    by_cases hne : cfg.isEmpty = true
    · rw [if_pos hne] at h; cases h
    · rw [if_neg hne] at h
      cases h1 : getItem cfg "endpoint" with
      | error e => simp only [h1] at h; cases h
      | ok v1 =>
        simp only [h1] at h
        cases h2 : getItem cfg "access_key" with
        | error e => simp only [h2] at h; cases h
        | ok v2 =>
          simp only [h2] at h
          cases h3 : getItem cfg "secret_key" with
          | error e => simp only [h3] at h; cases h
          | ok v3 =>
            simp only [h3] at h
            cases h4 : getItem cfg "bucket" with
            | error e => simp only [h4] at h; cases h
            | ok bucket =>
              simp only [h4] at h
              cases h5 : svc.listRecursive bucket with
              | error e => simp only [h5] at h; cases h
              | ok objects =>
                simp only [h5] at h
                refine ⟨cfg, bucket, objects, rfl, by simpa using hne, ?_, h5, h⟩
                unfold getItem at h4
                cases hd : dictGet cfg "bucket" with
                | none => rw [hd] at h4; cases h4
                | some v => rw [hd] at h4; cases h4; rfl

/-- Forward computation of the S3 strategy under a fully-resolved config. -/
theorem load_from_s3_eq (L : DatasetLoader) (svc : S3Service) (cfg : ConfigDict)
    (ak sk rg bucket : String) (pages : List (List String))
    (hcfg : L.s3_config = some cfg) (hne : cfg.isEmpty = false)
    (hak : dictGet cfg "access_key" = some ak)
    (hsk : dictGet cfg "secret_key" = some sk)
    (hrg : dictGet cfg "region" = some rg)
    (hbk : dictGet cfg "bucket" = some bucket)
    (hls : svc.listResult bucket = Except.ok pages) :
    load_from_s3 L svc = streamAll (svc.download bucket) (pages.headD []) := by
  simp only [load_from_s3, hcfg, hne, getItem, hak, hsk, hrg, hbk, hls]
  rw [if_neg (by simp [hne])]

/-- Forward computation of the MinIO strategy under a fully-resolved config. -/
theorem load_from_minio_eq (L : DatasetLoader) (svc : MinioService) (cfg : ConfigDict)
    (ep ak sk bucket : String) (objects : List String)
    (hcfg : L.minio_config = some cfg) (hne : cfg.isEmpty = false)
    (hep : dictGet cfg "endpoint" = some ep)
    (hak : dictGet cfg "access_key" = some ak)
    (hsk : dictGet cfg "secret_key" = some sk)
    (hbk : dictGet cfg "bucket" = some bucket)
    (hls : svc.listRecursive bucket = Except.ok objects) :
    load_from_minio L svc = streamAll (svc.fetchObject bucket) objects := by
  simp only [load_from_minio, hcfg, hne, getItem, hep, hak, hsk, hbk, hls]
  rw [if_neg (by simp [hne])]

/-! ### Claim theorems -/

/-- Claim C1: every key of a successful `load_images` result passes the
case-insensitive extension check for `.png`, `.jpg`, `.jpeg`, `.bmp`; hence
an object whose name has any other suffix never appears as a key. -/
theorem c1_result_keys_are_image_named (L : DatasetLoader) (env : Env) (files : LoadResult)
    (h : load_images L env = Except.ok files) :
    ∀ p ∈ files, isImageName p.1 = true := by
  unfold load_images at h
  by_cases h1 : pyStartsWith L.source "s3://" = true
  · rw [if_pos h1] at h
    obtain ⟨cfg, bucket, pages, _, _, _, _, hstream⟩ := load_from_s3_ok_inv L env.s3 files h
    intro p hp
    exact (streamAll_ok_keys _ _ _ hstream p hp).1
  · rw [if_neg h1] at h
    by_cases h2 : pyStartsWith L.source "minio://" = true
    · rw [if_pos h2] at h
      obtain ⟨cfg, bucket, objects, _, _, _, _, hstream⟩ :=
        load_from_minio_ok_inv L env.minio files h
      intro p hp
      exact (streamAll_ok_keys _ _ _ hstream p hp).1
    · rw [if_neg h2] at h
      obtain ⟨hex, entries, hls, hload⟩ := load_from_local_ok_inv L env.fs files h
      intro p hp
      have hkeys := loadFilesFromList_ok_keys _ _ _ hload
      have hmem : p.1 ∈ files.map Prod.fst := List.mem_map_of_mem Prod.fst hp
      rw [hkeys] at hmem
      obtain ⟨f, hf, hpf⟩ := List.mem_map.mp hmem
      have hfim : isImageName f = true := (List.mem_filter.mp hf).2
      rw [← hpf]
      exact isImageName_osPathJoin L.source f hfim

/-- Witness for C1: a successful MinIO load yields the nested key, and the
theorem certifies its suffix passes the image-extension check. -/
theorem c1_witness : isImageName "d1/d2/pic.BMP" = true :=
  c1_result_keys_are_image_named loaderMinioA envA
    [("d1/d2/pic.BMP", ⟨[3, 4], 0⟩)] (by rfl)
    ("d1/d2/pic.BMP", ⟨[3, 4], 0⟩) (by decide)

/-- Claim C2: `load_images` dispatches exhaustively on the source's scheme:
an `s3://` source selects the S3 strategy, otherwise a `minio://` source
selects the MinIO strategy, and every remaining source selects the local
strategy; there is no separate unknown-scheme error branch. -/
theorem c2_dispatch_exhaustive (L : DatasetLoader) (env : Env) :
    (pyStartsWith L.source "s3://" = true →
      load_images L env = load_from_s3 L env.s3) ∧
    (pyStartsWith L.source "s3://" = false → pyStartsWith L.source "minio://" = true →
      load_images L env = load_from_minio L env.minio) ∧
    (pyStartsWith L.source "s3://" = false → pyStartsWith L.source "minio://" = false →
      load_images L env = load_from_local L env.fs) := by
  refine ⟨fun h1 => ?_, fun h1 h2 => ?_, fun h1 h2 => ?_⟩
  · simp [load_images, h1]
  · simp [load_images, h1, h2]
  · simp [load_images, h1, h2]

/-- Witness for C2: a source with no recognized scheme takes the local branch. -/
theorem c2_witness : load_images loaderLocalA envA = load_from_local loaderLocalA envA.fs :=
  (c2_dispatch_exhaustive loaderLocalA envA).2.2 (by decide) (by decide)

/-- Claim C5: a local source naming a non-existent path makes `load_images`
fail with the configuration-class error and return no mapping. -/
theorem c5_local_missing_path (L : DatasetLoader) (env : Env)
    (h1 : pyStartsWith L.source "s3://" = false)
    (h2 : pyStartsWith L.source "minio://" = false)
    (hex : env.fs.pathExists L.source = false) :
    load_images L env =
      Except.error (PyError.valueError ("Local path does not exist: " ++ L.source)) := by
  simp [load_images, h1, h2, load_from_local, hex]

/-- Witness for C5: a missing directory yields the path-does-not-exist error. -/
theorem c5_witness :
    load_images loaderLocalB envA =
      Except.error (PyError.valueError ("Local path does not exist: " ++ "missing")) :=
  c5_local_missing_path loaderLocalB envA (by decide) (by decide) (by decide)

/-- Claim C9: `load_images` is deterministic in the loader's construction
arguments and the origin state: two calls against the same unchanged world
return structurally equal mappings (same keys in the same order, and for
each key byte-identical stream contents). -/
theorem c9_deterministic (L : DatasetLoader) (env : Env) (m1 m2 : LoadResult)
    (h1 : load_images L env = Except.ok m1) (h2 : load_images L env = Except.ok m2) :
    m1 = m2 ∧ m1.map Prod.fst = m2.map Prod.fst := by
  have h : Except.ok (ε := PyError) m1 = Except.ok m2 := h1.symm.trans h2
  cases h
  exact ⟨rfl, rfl⟩

/-- Witness for C9: two invocations against the sample directory agree. -/
theorem c9_witness :
    ([("data/a.PNG", (⟨[1, 2, 3], 0⟩ : ByteStream))] : LoadResult) =
      [("data/a.PNG", (⟨[1, 2, 3], 0⟩ : ByteStream))] ∧
    ([("data/a.PNG", (⟨[1, 2, 3], 0⟩ : ByteStream))] : LoadResult).map Prod.fst =
      [("data/a.PNG", (⟨[1, 2, 3], 0⟩ : ByteStream))].map Prod.fst :=
  c9_deterministic loaderLocalA envA
    [("data/a.PNG", ⟨[1, 2, 3], 0⟩)] [("data/a.PNG", ⟨[1, 2, 3], 0⟩)] (by rfl) (by rfl)

/-- Claim C4: with a remote origin selected and the corresponding backend
config absent, `load_images` fails with the configuration-class error; the
outcome is the same against every backend state, so no client was built and
no network interaction can have influenced the result. -/
theorem c4_missing_remote_config (L : DatasetLoader) (env env2 : Env) :
    (pyStartsWith L.source "s3://" = true → L.s3_config = none →
      load_images L env =
        Except.error (PyError.valueError "S3 configuration is required for loading from S3.") ∧
      load_images L env = load_images L env2) ∧
    (pyStartsWith L.source "s3://" = false → pyStartsWith L.source "minio://" = true →
      L.minio_config = none →
      load_images L env =
        Except.error (PyError.valueError "MinIO configuration is required for loading from MinIO.") ∧
      load_images L env = load_images L env2) := by
  constructor
  · intro h1 hcfg
    have key : ∀ e : Env, load_images L e =
        Except.error (PyError.valueError "S3 configuration is required for loading from S3.") := by
      intro e
      simp [load_images, h1, load_from_s3, hcfg]
    exact ⟨key env, (key env).trans (key env2).symm⟩
  · intro h1 h2 hcfg
    have key : ∀ e : Env, load_images L e =
        Except.error (PyError.valueError "MinIO configuration is required for loading from MinIO.") := by
      intro e
      simp [load_images, h1, h2, load_from_minio, hcfg]
    exact ⟨key env, (key env).trans (key env2).symm⟩

/-- Witness for C4: an `s3://` source with no S3 config fails identically
against two different backend states. -/
theorem c4_witness :
    load_images loaderS3NoCfg envA =
      Except.error (PyError.valueError "S3 configuration is required for loading from S3.") ∧
    load_images loaderS3NoCfg envA = load_images loaderS3NoCfg envB :=
  (c4_missing_remote_config loaderS3NoCfg envA envB).1 (by decide) (by rfl)

/-- Claim C10: a supplied-but-empty backend config is treated exactly like an
absent one, because the presence check tests dict truthiness: `load_images`
fails with the same configuration-class error and the same outcome. -/
theorem c10_empty_config_like_absent (src : String) (env : Env) :
    (pyStartsWith src "s3://" = true →
      load_images { source := src, minio_config := none, s3_config := some [] } env =
        Except.error (PyError.valueError "S3 configuration is required for loading from S3.") ∧
      load_images { source := src, minio_config := none, s3_config := some [] } env =
        load_images { source := src, minio_config := none, s3_config := none } env) ∧
    (pyStartsWith src "s3://" = false → pyStartsWith src "minio://" = true →
      load_images { source := src, minio_config := some [], s3_config := none } env =
        Except.error (PyError.valueError "MinIO configuration is required for loading from MinIO.") ∧
      load_images { source := src, minio_config := some [], s3_config := none } env =
        load_images { source := src, minio_config := none, s3_config := none } env) := by
  constructor
  · intro h1
    constructor
    · simp [load_images, h1, load_from_s3]
    · simp [load_images, h1, load_from_s3]
  · intro h1 h2
    constructor
    · simp [load_images, h1, h2, load_from_minio]
    · simp [load_images, h1, h2, load_from_minio]

/-- Witness for C10: an empty S3 config dict fails exactly like a missing one. -/
theorem c10_witness :
    load_images { source := "s3://bkt", minio_config := none, s3_config := some [] } envA =
      Except.error (PyError.valueError "S3 configuration is required for loading from S3.") ∧
    load_images { source := "s3://bkt", minio_config := none, s3_config := some [] } envA =
      load_images { source := "s3://bkt", minio_config := none, s3_config := none } envA :=
  (c10_empty_config_like_absent "s3://bkt" envA).1 (by decide)

/-- Claim C3: for an existing local directory whose matching entries all
read successfully, `load_images` returns exactly one entry per matching
entry (non-matching files contribute nothing), keyed by the joined path
`source/filename`, holding that file's exact bytes at read position 0. -/
theorem c3_local_exact_contents (L : DatasetLoader) (env : Env) (entries : List String)
    (content : String → List Nat)
    (h1 : pyStartsWith L.source "s3://" = false)
    (h2 : pyStartsWith L.source "minio://" = false)
    (hex : env.fs.pathExists L.source = true)
    (hls : env.fs.listdir L.source = Except.ok entries)
    (hread : ∀ f ∈ entries.filter (fun f => isImageName f),
      env.fs.readBytes (osPathJoin L.source f) =
        Except.ok (content (osPathJoin L.source f))) :
    load_images L env =
      Except.ok ((entries.filter (fun f => isImageName f)).map
        (fun f => (osPathJoin L.source f, ⟨content (osPathJoin L.source f), 0⟩))) ∧
    ((entries.filter (fun f => isImageName f)).map
        (fun f => (osPathJoin L.source f,
          (⟨content (osPathJoin L.source f), 0⟩ : ByteStream)))).length =
      (entries.filter (fun f => isImageName f)).length := by
  constructor
  · have hall : ∀ p ∈ (entries.filter (fun f => isImageName f)).map
        (fun f => osPathJoin L.source f),
        env.fs.readBytes p = Except.ok (content p) := by
      intro p hp
      obtain ⟨f, hf, rfl⟩ := List.mem_map.mp hp
      exact hread f hf
    have hcomp := loadFilesFromList_ok env.fs.readBytes content
      ((entries.filter (fun f => isImageName f)).map (fun f => osPathJoin L.source f)) hall
    simp only [load_images]
    rw [if_neg (by simp [h1]), if_neg (by simp [h2])]
    simp only [load_from_local, hex]
    rw [if_neg (by simp)]
    simp only [hls]
    rw [hcomp, List.map_map]
    rfl
  · simp

/-- Witness for C3: the sample directory holds one matching and one
non-matching entry; the call returns exactly the matching one with its
bytes at position 0. -/
theorem c3_witness :
    load_images loaderLocalA envA = Except.ok [("data/a.PNG", ⟨[1, 2, 3], 0⟩)] ∧
    ([("data/a.PNG", (⟨[1, 2, 3], 0⟩ : ByteStream))] : LoadResult).length = 1 := by
  have h := c3_local_exact_contents loaderLocalA envA ["a.PNG", "b.txt"]
    (fun p => if p = "data/a.PNG" then [1, 2, 3] else [])
    (by decide) (by decide) (by decide) (by rfl) (by decide)
  exact h

/-- Claim C6: whichever strategy runs, a failure while listing or while
streaming any one matching candidate makes the whole call fail: no mapping
is returned and entries streamed earlier in the loop are discarded. -/
theorem c6_all_or_nothing (L : DatasetLoader) (env : Env) :
    (∀ e, pyStartsWith L.source "s3://" = false → pyStartsWith L.source "minio://" = false →
      env.fs.listdir L.source = Except.error e →
      ∀ files, load_images L env ≠ Except.ok files) ∧
    (∀ entries f e, pyStartsWith L.source "s3://" = false →
      pyStartsWith L.source "minio://" = false →
      env.fs.listdir L.source = Except.ok entries → f ∈ entries → isImageName f = true →
      env.fs.readBytes (osPathJoin L.source f) = Except.error e →
      ∀ files, load_images L env ≠ Except.ok files) ∧
    (∀ cfg bucket e, pyStartsWith L.source "s3://" = true →
      L.s3_config = some cfg → dictGet cfg "bucket" = some bucket →
      env.s3.listResult bucket = Except.error e →
      ∀ files, load_images L env ≠ Except.ok files) ∧
    (∀ cfg bucket pages k e, pyStartsWith L.source "s3://" = true →
      L.s3_config = some cfg → dictGet cfg "bucket" = some bucket →
      env.s3.listResult bucket = Except.ok pages →
      k ∈ pages.headD [] → isImageName k = true →
      env.s3.download bucket k = Except.error e →
      ∀ files, load_images L env ≠ Except.ok files) ∧
    (∀ cfg bucket e, pyStartsWith L.source "s3://" = false →
      pyStartsWith L.source "minio://" = true →
      L.minio_config = some cfg → dictGet cfg "bucket" = some bucket →
      env.minio.listRecursive bucket = Except.error e →
      ∀ files, load_images L env ≠ Except.ok files) ∧
    (∀ cfg bucket objects k e, pyStartsWith L.source "s3://" = false →
      pyStartsWith L.source "minio://" = true →
      L.minio_config = some cfg → dictGet cfg "bucket" = some bucket →
      env.minio.listRecursive bucket = Except.ok objects →
      k ∈ objects → isImageName k = true →
      env.minio.fetchObject bucket k = Except.error e →
      ∀ files, load_images L env ≠ Except.ok files) := by
  refine ⟨?_, ?_, ?_, ?_, ?_, ?_⟩
  · intro e h1 h2 hls files hok
    unfold load_images at hok
    rw [if_neg (by simp [h1]), if_neg (by simp [h2])] at hok
    obtain ⟨hex, entries, hls2, hload⟩ := load_from_local_ok_inv L env.fs files hok
    rw [hls] at hls2
    cases hls2
  · intro entries f e h1 h2 hls hf him hread files hok
    unfold load_images at hok
    rw [if_neg (by simp [h1]), if_neg (by simp [h2])] at hok
    obtain ⟨hex, entries2, hls2, hload⟩ := load_from_local_ok_inv L env.fs files hok
    rw [hls] at hls2
    cases hls2
    obtain ⟨e2, herr⟩ := loadFilesFromList_error env.fs.readBytes
      ((entries.filter (fun g => isImageName g)).map (fun g => osPathJoin L.source g))
      (osPathJoin L.source f) e
      (List.mem_map_of_mem _ (List.mem_filter.mpr ⟨hf, him⟩)) hread
    rw [herr] at hload
    cases hload
  · intro cfg bucket e h1 hcfg hbk hls files hok
    unfold load_images at hok
    rw [if_pos h1] at hok
    obtain ⟨cfg2, bucket2, pages, hcfg2, hne2, hbk2, hls2, hstream⟩ :=
      load_from_s3_ok_inv L env.s3 files hok
    rw [hcfg] at hcfg2
    cases hcfg2
    rw [hbk] at hbk2
    cases hbk2
    rw [hls] at hls2
    cases hls2
  · intro cfg bucket pages k e h1 hcfg hbk hls hk him hdl files hok
    unfold load_images at hok
    rw [if_pos h1] at hok
    obtain ⟨cfg2, bucket2, pages2, hcfg2, hne2, hbk2, hls2, hstream⟩ :=
      load_from_s3_ok_inv L env.s3 files hok
    rw [hcfg] at hcfg2
    cases hcfg2
    rw [hbk] at hbk2
    cases hbk2
    rw [hls] at hls2
    cases hls2
    obtain ⟨e2, herr⟩ := streamAll_error_of_fetch (env.s3.download bucket)
      (pages.headD []) k e hk him hdl
    rw [herr] at hstream
    cases hstream
  · intro cfg bucket e h1 h2 hcfg hbk hls files hok
    unfold load_images at hok
    rw [if_neg (by simp [h1]), if_pos h2] at hok
    obtain ⟨cfg2, bucket2, objects, hcfg2, hne2, hbk2, hls2, hstream⟩ :=
      load_from_minio_ok_inv L env.minio files hok
    rw [hcfg] at hcfg2
    cases hcfg2
    rw [hbk] at hbk2
    cases hbk2
    rw [hls] at hls2
    cases hls2
  · intro cfg bucket objects k e h1 h2 hcfg hbk hls hk him hfe files hok
    unfold load_images at hok
    rw [if_neg (by simp [h1]), if_pos h2] at hok
    obtain ⟨cfg2, bucket2, objects2, hcfg2, hne2, hbk2, hls2, hstream⟩ :=
      load_from_minio_ok_inv L env.minio files hok
    rw [hcfg] at hcfg2
    cases hcfg2
    rw [hbk] at hbk2
    cases hbk2
    rw [hls] at hls2
    cases hls2
    obtain ⟨e2, herr⟩ := streamAll_error_of_fetch (env.minio.fetchObject bucket)
      objects k e hk him hfe
    rw [herr] at hstream
    cases hstream

/-- Witness for C6: against a backend whose only matching object fails to
download, the call returns no mapping. -/
theorem c6_witness : load_images loaderS3A envB ≠ Except.ok [] :=
  (c6_all_or_nothing loaderS3A envB).2.2.2.1 s3cfgA "bkt" [["x.jpg"]] "x.jpg"
    (PyError.ioError "boom") (by decide) (by rfl) (by rfl) (by rfl) (by decide) (by decide)
    (by rfl) []

/-- Claim C7: the S3 strategy consults exactly one non-paginated listing
call, so the result is computed from the first listing page alone, and a
key appearing only on a later page never appears in the result. -/
theorem c7_s3_first_page_only (L : DatasetLoader) (env : Env) (cfg : ConfigDict)
    (ak sk rg bucket : String) (pages : List (List String))
    (h1 : pyStartsWith L.source "s3://" = true)
    (hcfg : L.s3_config = some cfg) (hne : cfg.isEmpty = false)
    (hak : dictGet cfg "access_key" = some ak)
    (hsk : dictGet cfg "secret_key" = some sk)
    (hrg : dictGet cfg "region" = some rg)
    (hbk : dictGet cfg "bucket" = some bucket)
    (hls : env.s3.listResult bucket = Except.ok pages) :
    load_images L env = streamAll (env.s3.download bucket) (pages.headD []) ∧
    ∀ files p, load_images L env = Except.ok files → p ∈ files → p.1 ∈ pages.headD [] := by
  have heq : load_images L env = streamAll (env.s3.download bucket) (pages.headD []) := by
    simp only [load_images]
    rw [if_pos h1]
    exact load_from_s3_eq L env.s3 cfg ak sk rg bucket pages hcfg hne hak hsk hrg hbk hls
  refine ⟨heq, ?_⟩
  intro files p hok hp
  rw [heq] at hok
  exact (streamAll_ok_keys _ _ _ hok p hp).2

/-- Witness for C7: with a two-page listing whose second page holds a
matching object, the result is computed from the first page only, so the
second-page object is absent. -/
theorem c7_witness :
    load_images loaderS3A envA = streamAll (envA.s3.download "bkt")
      (([["x.jpg", "notes.txt"], ["later.png"]] : List (List String)).headD []) :=
  (c7_s3_first_page_only loaderS3A envA s3cfgA "ak" "sk" "r" "bkt"
    [["x.jpg", "notes.txt"], ["later.png"]]
    (by decide) (by rfl) (by rfl) (by rfl) (by rfl) (by rfl) (by rfl) (by rfl)).1

/-- Claim C8: the MinIO strategy lists recursively, so every matching object
at any nesting depth contributes an entry keyed by its full object name,
holding the object's bytes fully buffered at read position 0. -/
theorem c8_minio_recursive_all_depths (L : DatasetLoader) (env : Env) (cfg : ConfigDict)
    (ep ak sk bucket : String) (objects : List String)
    (content : String → List Nat) (k : String)
    (h1 : pyStartsWith L.source "s3://" = false)
    (h2 : pyStartsWith L.source "minio://" = true)
    (hcfg : L.minio_config = some cfg) (hne : cfg.isEmpty = false)
    (hep : dictGet cfg "endpoint" = some ep)
    (hak : dictGet cfg "access_key" = some ak)
    (hsk : dictGet cfg "secret_key" = some sk)
    (hbk : dictGet cfg "bucket" = some bucket)
    (hls : env.minio.listRecursive bucket = Except.ok objects)
    (hfetch : ∀ k2 ∈ objects, isImageName k2 = true →
      env.minio.fetchObject bucket k2 = Except.ok (content k2))
    (hk : k ∈ objects) (him : isImageName k = true) :
    load_images L env =
      Except.ok ((objects.filter (fun k2 => isImageName k2)).map
        (fun k2 => (k2, ⟨content k2, 0⟩))) ∧
    (k, (⟨content k, 0⟩ : ByteStream)) ∈
      (objects.filter (fun k2 => isImageName k2)).map
        (fun k2 => (k2, (⟨content k2, 0⟩ : ByteStream))) := by
  constructor
  · simp only [load_images]
    rw [if_neg (by simp [h1]), if_pos h2]
    rw [load_from_minio_eq L env.minio cfg ep ak sk bucket objects hcfg hne hep hak hsk hbk hls]
    exact streamAll_ok_of_all _ content objects hfetch
  · exact List.mem_map_of_mem _ (List.mem_filter.mpr ⟨hk, him⟩)

/-- Witness for C8: an object nested two folders deep appears, keyed by its
full name, with its bytes at position 0. -/
theorem c8_witness :
    load_images loaderMinioA envA = Except.ok [("d1/d2/pic.BMP", ⟨[3, 4], 0⟩)] ∧
    ("d1/d2/pic.BMP", (⟨[3, 4], 0⟩ : ByteStream)) ∈
      ([("d1/d2/pic.BMP", (⟨[3, 4], 0⟩ : ByteStream))] : LoadResult) := by
  have h := c8_minio_recursive_all_depths loaderMinioA envA minioCfgA "ep" "ak" "sk" "mb"
    ["d1/d2/pic.BMP", "d1/readme.md"]
    (fun k => if k = "d1/d2/pic.BMP" then [3, 4] else []) "d1/d2/pic.BMP"
    (by decide) (by decide) (by rfl) (by rfl) (by rfl) (by rfl) (by rfl) (by rfl) (by rfl)
    (by decide) (by decide) (by decide)
  exact h
